import Mathlib

/-!
# Shallow embedding of the `create-tigra` authentication core

This file embeds the security-sensitive authentication logic of the
template server — password verification with transparent legacy-hash
upgrade (`src/libs/password.ts`), progressive account lockout and the
login / register / refresh / logout orchestrators
(`src/modules/auth/auth.service.ts`), and the persistence operations they
consume (`src/modules/auth/auth.repo.ts`, `src/modules/auth/session.repo.ts`)
— and proves the behavioural properties stated in the specification.

Modelling conventions:
* JavaScript `Date` values (epoch milliseconds) are `Nat`; each service
  call receives the current instant `now` explicitly.
* The Prisma store is a record of lists (`users`, `tokens`, `sessions`);
  repository functions are explicit state-passing functions.  The only
  database error that the source code ever handles is Prisma's `P2025`
  ("record not found"), raised by `delete` on an absent row; it is the
  one constructor of `DbErr`.
* Randomness (`uuidv4` refresh tokens, generated row ids) is passed in as
  an explicit fresh value.
* Thrown application errors (`AppError` subclasses) are modelled by
  `Except`; a service call returns the post-state together with either an
  error or its result, so state changes on error paths stay observable.
-/

/-- `String.prototype.startsWith` of JavaScript: the prefix test on the
underlying character sequences. -/
def jsStartsWith (s pre : String) : Bool := pre.data.isPrefixOf s.data

/-! ## Password hashing and verification (`src/libs/password.ts`) -/

/-- Modelled from the spec: the external `bcryptjs` library is not part of
the repository; its hashes are modelled as an idealized injective scheme
carrying the `$2b$` bcrypt version tag. -/
def legacyHashOf (password : String) : String := "$2b$" ++ password

/-- Modelled from the spec: the external `argon2` library is not part of
the repository; its hashes are modelled as an idealized injective scheme
carrying the `$argon2id$` tag. -/
def modernHashOf (password : String) : String := "$argon2id$" ++ password

/-- Modelled from the spec: `bcrypt.compare(password, hash)` of the
external `bcryptjs` library succeeds exactly on the matching password. -/
def bcryptCompare (password hash : String) : Bool := hash == legacyHashOf password

/-- Modelled from the spec: `argon2.verify(hash, password)` of the
external `argon2` library succeeds exactly on the matching password. -/
def argon2Verify (hash password : String) : Bool := hash == modernHashOf password

/-- `hashPassword` of `password.ts`: hash with the modern scheme
(argon2id). -/
def hashPassword (password : String) : String := modernHashOf password

/-- Result of `verifyPassword`: `{ valid, needsRehash }`. -/
structure VerifyResult where
  valid : Bool
  needsRehash : Bool
  deriving Repr, DecidableEq

/-- The bcrypt-prefix test of `verifyPassword`:
`hash.startsWith('$2a$') || hash.startsWith('$2b$') || hash.startsWith('$2y$')`. -/
def isBcryptHash (hash : String) : Bool :=
  jsStartsWith hash "$2a$" || jsStartsWith hash "$2b$" || jsStartsWith hash "$2y$"

/-- `verifyPassword` of `password.ts`: dispatch on the hash scheme;
a legacy (bcrypt) hash requests a rehash exactly when the password
matched, a modern hash never does. -/
def verifyPassword (password hash : String) : VerifyResult :=
  if isBcryptHash hash then
    let valid := bcryptCompare password hash
    { valid := valid, needsRehash := valid }
  else
    { valid := argon2Verify hash password, needsRehash := false }

/-! ## Account lockout policy (`auth.service.ts`) -/

/-- `LOCKOUT_THRESHOLDS` of `auth.service.ts`: ordered
`(attempts, durationMs)` pairs. -/
def LOCKOUT_THRESHOLDS : List (Nat × Nat) :=
  [(5, 15 * 60 * 1000), (10, 30 * 60 * 1000), (15, 60 * 60 * 1000)]

/-- The downward scan of `getLockoutDuration`: first entry (of the
reversed table) whose threshold is met. -/
def lockoutScan : List (Nat × Nat) → Nat → Option Nat
  | [], _ => none
  | (attempts, durationMs) :: rest, failedAttempts =>
      if failedAttempts ≥ attempts then some durationMs
      else lockoutScan rest failedAttempts

/-- `getLockoutDuration` of `auth.service.ts`: walk `LOCKOUT_THRESHOLDS`
from the highest threshold down and return the duration of the first
(hence highest) threshold met, or `null`. -/
def getLockoutDuration (failedAttempts : Nat) : Option Nat :=
  lockoutScan LOCKOUT_THRESHOLDS.reverse failedAttempts

/-! ## Data model -/

/-- `UserRole` of the shared types. -/
inductive UserRole where
  | user
  | admin
  deriving Repr, DecidableEq

/-- A row of the `User` table (fields used by the auth subsystem). -/
structure User where
  id : Nat
  email : String
  password : String
  firstName : String
  lastName : String
  avatarUrl : Option String
  role : UserRole
  isActive : Bool
  deletedAt : Option Nat
  failedLoginAttempts : Nat
  lockedUntil : Option Nat
  createdAt : Nat
  updatedAt : Nat
  deriving Repr, DecidableEq

/-- A row of the `RefreshToken` table. -/
structure RefreshToken where
  token : String
  userId : Nat
  expiresAt : Nat
  createdAt : Nat
  deriving Repr, DecidableEq

/-- A row of the `Session` table. -/
structure Session where
  id : Nat
  userId : Nat
  deviceInfo : Option String
  ipAddress : Option String
  lastActiveAt : Nat
  expiresAt : Nat
  createdAt : Nat
  deriving Repr, DecidableEq

/-- The persistent store backing the Prisma client. -/
structure DB where
  users : List User
  tokens : List RefreshToken
  sessions : List Session
  deriving Repr, DecidableEq

/-- Prisma error `P2025` ("An operation failed because it depends on one
or more records that were required but not found"), the only database
error the auth code inspects. -/
inductive DbErr where
  | P2025
  deriving Repr, DecidableEq

/-- An `AppError` of `shared/errors`: code, message, HTTP status. -/
structure AppErr where
  code : String
  message : String
  statusCode : Nat
  deriving Repr, DecidableEq

/-- `new UnauthorizedError(message, code)` — status 401. -/
def UnauthorizedError (message code : String) : AppErr :=
  { code := code, message := message, statusCode := 401 }

/-- `new ConflictError(message, code)` — status 409. -/
def ConflictError (message code : String) : AppErr :=
  { code := code, message := message, statusCode := 409 }

/-- `new NotFoundError(message, code)` — status 404. -/
def NotFoundError (message code : String) : AppErr :=
  { code := code, message := message, statusCode := 404 }

/-! ## Auth repository (`auth.repo.ts`) -/

/-- `findUserByEmail`: `prisma.user.findUnique({ where: { email, deletedAt: null } })`. -/
def findUserByEmail (db : DB) (email : String) : Option User :=
  db.users.find? fun u => u.email == email && u.deletedAt == none

/-- `findUserById`: `prisma.user.findUnique({ where: { id, deletedAt: null } })`. -/
def findUserById (db : DB) (id : Nat) : Option User :=
  db.users.find? fun u => u.id == id && u.deletedAt == none

/-- `prisma.user.update({ where: { id } })`: rewrite the rows matching the
unique id. -/
def updateUserRow (db : DB) (id : Nat) (f : User → User) : DB :=
  { db with users := db.users.map fun u => if u.id == id then f u else u }

/-- `createUser`: insert a fresh user row; Prisma fills the generated id,
the timestamps and the column defaults (`role USER`, `isActive true`,
zero failed attempts, no lock, not deleted). -/
def createUser (db : DB) (freshId : Nat) (now : Nat)
    (email password firstName lastName : String) : User × DB :=
  let u : User :=
    { id := freshId, email := email, password := password,
      firstName := firstName, lastName := lastName, avatarUrl := none,
      role := UserRole.user, isActive := true, deletedAt := none,
      failedLoginAttempts := 0, lockedUntil := none,
      createdAt := now, updatedAt := now }
  (u, { db with users := db.users ++ [u] })

/-- `createRefreshToken`: `prisma.refreshToken.create`; Prisma fills
`createdAt`. -/
def createRefreshToken (db : DB) (token : String) (userId : Nat)
    (expiresAt now : Nat) : DB :=
  { db with tokens := db.tokens ++
      [{ token := token, userId := userId, expiresAt := expiresAt, createdAt := now }] }

/-- `findRefreshToken`: `prisma.refreshToken.findUnique({ where: { token } })`. -/
def findRefreshToken (db : DB) (token : String) : Option RefreshToken :=
  db.tokens.find? fun t => t.token == token

/-- `prisma.refreshToken.delete({ where: { token } })`: raises `P2025`
when no such row exists. -/
def deleteRefreshTokenRaw (db : DB) (token : String) : DB × Except DbErr Unit :=
  if db.tokens.any (fun t => t.token == token) then
    ({ db with tokens := db.tokens.filter fun t => t.token != token }, Except.ok ())
  else
    (db, Except.error DbErr.P2025)

/-- `deleteRefreshToken` of `auth.repo.ts`: delete the row, swallowing
`P2025` (the token was already deleted by a concurrent request). -/
def deleteRefreshToken (db : DB) (token : String) : DB × Except DbErr Unit :=
  match deleteRefreshTokenRaw db token with
  | (db', Except.error DbErr.P2025) => (db', Except.ok ())
  | r => r

/-- `rotateRefreshToken` of `auth.repo.ts`: run
`delete old; create new` as one transaction; `P2025` (old token already
consumed) rolls the transaction back and returns `false`. -/
def rotateRefreshToken (db : DB) (oldToken : String)
    (newData : RefreshToken) : DB × Bool :=
  match deleteRefreshTokenRaw db oldToken with
  | (db', Except.ok ()) =>
      ({ db' with tokens := db'.tokens ++ [newData] }, true)
  | (_, Except.error DbErr.P2025) => (db, false)

/-- `incrementFailedAttempts`: `failedLoginAttempts: { increment: 1 }`. -/
def incrementFailedAttempts (db : DB) (userId : Nat) : DB :=
  updateUserRow db userId fun u =>
    { u with failedLoginAttempts := u.failedLoginAttempts + 1 }

/-- `setAccountLock`: persist the lock expiry. -/
def setAccountLock (db : DB) (userId : Nat) (lockedUntil : Nat) : DB :=
  updateUserRow db userId fun u => { u with lockedUntil := some lockedUntil }

/-- `resetFailedAttempts`: zero the counter and clear the lock. -/
def resetFailedAttempts (db : DB) (userId : Nat) : DB :=
  updateUserRow db userId fun u =>
    { u with failedLoginAttempts := 0, lockedUntil := none }

/-- `updateUserPassword`: persist a new password hash. -/
def updateUserPassword (db : DB) (userId : Nat) (hashedPassword : String) : DB :=
  updateUserRow db userId fun u => { u with password := hashedPassword }

/-! ## Session repository (`session.repo.ts`) -/

/-- `createSession`: `prisma.session.create`; Prisma fills the generated
id, `lastActiveAt` and `createdAt`. -/
def createSession (db : DB) (freshId : Nat) (userId : Nat)
    (deviceInfo ipAddress : Option String) (expiresAt now : Nat) : DB :=
  { db with sessions := db.sessions ++
      [{ id := freshId, userId := userId, deviceInfo := deviceInfo,
         ipAddress := ipAddress, lastActiveAt := now,
         expiresAt := expiresAt, createdAt := now }] }

/-- `getUserSessions`: the user's unexpired sessions, ordered by
`lastActiveAt` descending. -/
def getUserSessions (db : DB) (userId : Nat) (now : Nat) : List Session :=
  (db.sessions.filter fun s => s.userId == userId && now < s.expiresAt).mergeSort
    fun a b => b.lastActiveAt ≤ a.lastActiveAt

/-- `prisma.session.delete({ where: { id } })`: raises `P2025` when no
such row exists. -/
def deleteSessionRaw (db : DB) (sessionId : Nat) : DB × Except DbErr Unit :=
  if db.sessions.any (fun s => s.id == sessionId) then
    ({ db with sessions := db.sessions.filter fun s => s.id != sessionId }, Except.ok ())
  else
    (db, Except.error DbErr.P2025)

/-! ## Auth service (`auth.service.ts`) -/

/-- The refresh-token lifetime `parseDurationMs(env.JWT_REFRESH_EXPIRY, 7d)`
used by `getRefreshTokenExpiresAt`; the configured default of seven days. -/
def refreshTokenTtlMs : Nat := 7 * 24 * 60 * 60 * 1000

/-- `getRefreshTokenExpiresAt` of `libs/auth.ts`: `Date.now() + ttl`. -/
def getRefreshTokenExpiresAt (now : Nat) : Nat := now + refreshTokenTtlMs

/-- Modelled from the spec: `signAccessToken` delegates to the external
`@fastify/jwt` signer, which is not part of the repository; the JWT is
modelled as a function of the signed payload. -/
def signAccessToken (userId : Nat) (role : UserRole) : String :=
  "jwt:" ++ toString userId ++ (match role with
    | UserRole.user => ":USER"
    | UserRole.admin => ":ADMIN")

/-- Modelled from the spec: `Date.prototype.toISOString`, an injective
rendering of the epoch-millisecond timestamp. -/
def toISOString (ms : Nat) : String := "iso:" ++ toString ms

/-- `SanitizedUser` of `auth.service.ts` — note: no password field. -/
structure SanitizedUser where
  id : Nat
  email : String
  firstName : String
  lastName : String
  avatarUrl : Option String
  role : UserRole
  isActive : Bool
  createdAt : String
  updatedAt : String
  deriving Repr, DecidableEq

/-- `sanitizeUser`: drop the password, default `avatarUrl` to `null`,
serialize the timestamps. -/
def sanitizeUser (user : User) : SanitizedUser :=
  { id := user.id, email := user.email, firstName := user.firstName,
    lastName := user.lastName,
    avatarUrl := user.avatarUrl,
    role := user.role, isActive := user.isActive,
    createdAt := toISOString user.createdAt,
    updatedAt := toISOString user.updatedAt }

/-- `AuthResult` of `auth.service.ts`. -/
structure AuthResult where
  user : SanitizedUser
  accessToken : String
  refreshToken : String
  deriving Repr, DecidableEq

/-- `RegisterInput` (post-validation shape of the zod schema). -/
structure RegisterInput where
  email : String
  password : String
  firstName : String
  lastName : String
  deriving Repr, DecidableEq

/-- `LoginInput` (post-validation shape of the zod schema). -/
structure LoginInput where
  email : String
  password : String
  deriving Repr, DecidableEq

/-- Per-call environment for a service invocation: the current instant
and the fresh random values the call draws (`uuidv4` refresh token,
generated row ids). -/
structure CallCtx where
  now : Nat
  freshToken : String
  freshUserId : Nat
  freshSessionId : Nat
  deriving Repr, DecidableEq

/-- `register` of `auth.service.ts`. -/
def register (db : DB) (ctx : CallCtx) (input : RegisterInput)
    (deviceInfo ipAddress : Option String) : DB × Except AppErr AuthResult :=
  match findUserByEmail db input.email with
  | some _ =>
      (db, Except.error (ConflictError "Email already registered" "EMAIL_ALREADY_EXISTS"))
  | none =>
      let hashedPassword := hashPassword input.password
      let (user, db) := createUser db ctx.freshUserId ctx.now
        input.email hashedPassword input.firstName input.lastName
      let accessToken := signAccessToken user.id user.role
      let refreshToken := ctx.freshToken
      let refreshTokenExpiresAt := getRefreshTokenExpiresAt ctx.now
      let db := createRefreshToken db refreshToken user.id refreshTokenExpiresAt ctx.now
      let db := createSession db ctx.freshSessionId user.id
        deviceInfo ipAddress refreshTokenExpiresAt ctx.now
      (db, Except.ok { user := sanitizeUser user, accessToken := accessToken,
                       refreshToken := refreshToken })

/-- `login` of `auth.service.ts`. -/
def login (db : DB) (ctx : CallCtx) (input : LoginInput)
    (deviceInfo ipAddress : Option String) : DB × Except AppErr AuthResult :=
  match findUserByEmail db input.email with
  | none =>
      (db, Except.error (UnauthorizedError "Invalid email or password" "INVALID_CREDENTIALS"))
  | some user =>
      if !user.isActive then
        (db, Except.error (UnauthorizedError "Invalid email or password" "INVALID_CREDENTIALS"))
      else if user.lockedUntil.any (fun t => ctx.now < t) then
        (db, Except.error (UnauthorizedError "Invalid email or password" "INVALID_CREDENTIALS"))
      else
        let vr := verifyPassword input.password user.password
        if !vr.valid then
          let newAttempts := user.failedLoginAttempts + 1
          let db := incrementFailedAttempts db user.id
          let db := match getLockoutDuration newAttempts with
            | some lockDuration => setAccountLock db user.id (ctx.now + lockDuration)
            | none => db
          (db, Except.error (UnauthorizedError "Invalid email or password" "INVALID_CREDENTIALS"))
        else
          let db := if user.failedLoginAttempts > 0 || user.lockedUntil != none then
              resetFailedAttempts db user.id
            else db
          let db := if vr.needsRehash then
              updateUserPassword db user.id (hashPassword input.password)
            else db
          let accessToken := signAccessToken user.id user.role
          let refreshToken := ctx.freshToken
          let refreshTokenExpiresAt := getRefreshTokenExpiresAt ctx.now
          let db := createRefreshToken db refreshToken user.id refreshTokenExpiresAt ctx.now
          let db := createSession db ctx.freshSessionId user.id
            deviceInfo ipAddress refreshTokenExpiresAt ctx.now
          (db, Except.ok { user := sanitizeUser user, accessToken := accessToken,
                           refreshToken := refreshToken })

/-- The token pair returned by `refresh`. -/
structure TokenPair where
  accessToken : String
  refreshToken : String
  deriving Repr, DecidableEq

/-- The read/validate phase of `refresh` (everything before the rotation):
look the token up, expire it if stale, load and check the owning user. -/
def refreshValidate (db : DB) (refreshToken : String) (now : Nat) :
    DB × Except AppErr (RefreshToken × User) :=
  match findRefreshToken db refreshToken with
  | none =>
      (db, Except.error (UnauthorizedError "Invalid refresh token" "INVALID_REFRESH_TOKEN"))
  | some storedToken =>
      if storedToken.expiresAt < now then
        let (db, _) := deleteRefreshToken db refreshToken
        (db, Except.error (UnauthorizedError "Refresh token expired" "REFRESH_TOKEN_EXPIRED"))
      else
        match findUserById db storedToken.userId with
        | none =>
            (db, Except.error (UnauthorizedError "User not found or disabled" "INVALID_REFRESH_TOKEN"))
        | some user =>
            if !user.isActive then
              (db, Except.error (UnauthorizedError "User not found or disabled" "INVALID_REFRESH_TOKEN"))
            else
              (db, Except.ok (storedToken, user))

/-- The commit phase of `refresh`: sign the new access token and
atomically rotate the refresh token; a failed rotation (old row already
gone) aborts with "Refresh token already used". -/
def refreshFinish (db : DB) (oldToken : String) (user : User)
    (newToken : String) (now : Nat) : DB × Except AppErr TokenPair :=
  let newAccessToken := signAccessToken user.id user.role
  let (db, rotated) := rotateRefreshToken db oldToken
    { token := newToken, userId := user.id,
      expiresAt := getRefreshTokenExpiresAt now, createdAt := now }
  if !rotated then
    (db, Except.error (UnauthorizedError "Refresh token already used" "INVALID_REFRESH_TOKEN"))
  else
    (db, Except.ok { accessToken := newAccessToken, refreshToken := newToken })

/-- `refresh` of `auth.service.ts`: validate, then rotate and answer. -/
def refresh (db : DB) (refreshToken : String) (now : Nat)
    (newToken : String) : DB × Except AppErr TokenPair :=
  match refreshValidate db refreshToken now with
  | (db, Except.error e) => (db, Except.error e)
  | (db, Except.ok (_storedToken, user)) =>
      refreshFinish db refreshToken user newToken now

/-- `Math.abs(a - b)` on epoch milliseconds. -/
def absDiff (a b : Nat) : Nat := max a b - min a b

/-- The `try` body of `logout`: find the token (for session correlation),
delete it, and delete the one session whose creation instant lies within
the 5-second tolerance of the token's. -/
def logoutBody (db : DB) (refreshToken : String) (now : Nat) :
    DB × Except DbErr Unit :=
  let storedToken := findRefreshToken db refreshToken
  match deleteRefreshToken db refreshToken with
  | (db, Except.error e) => (db, Except.error e)
  | (db, Except.ok ()) =>
      match storedToken with
      | none => (db, Except.ok ())
      | some storedToken =>
          let sessions := getUserSessions db storedToken.userId now
          let tokenCreatedMs := storedToken.createdAt
          match sessions.find? (fun s => absDiff s.createdAt tokenCreatedMs < 5000) with
          | none => (db, Except.ok ())
          | some matchingSession => deleteSessionRaw db matchingSession.id

/-- `logout` of `auth.service.ts`: run the body under `try`/`catch`;
every error is swallowed, so the caller always gets a plain completion. -/
def logout (db : DB) (refreshToken : String) (now : Nat) : DB × Except AppErr Unit :=
  match logoutBody db refreshToken now with
  | (db, _) => (db, Except.ok ())

/-! ## Helper lemmas about the hash schemes -/

theorem legacyHashOf_inj {a b : String} (h : legacyHashOf a = legacyHashOf b) : a = b := by
  have h2 := congrArg String.data h
  simp [legacyHashOf, String.data_append] at h2
  exact String.ext h2

theorem modernHashOf_inj {a b : String} (h : modernHashOf a = modernHashOf b) : a = b := by
  have h2 := congrArg String.data h
  simp [modernHashOf, String.data_append] at h2
  exact String.ext h2

theorem isBcryptHash_legacy (pw : String) : isBcryptHash (legacyHashOf pw) = true := by
  simp [isBcryptHash, legacyHashOf, jsStartsWith, String.data_append, List.isPrefixOf]

theorem isBcryptHash_modern (pw : String) : isBcryptHash (modernHashOf pw) = false := by
  simp [isBcryptHash, modernHashOf, jsStartsWith, String.data_append, List.isPrefixOf]

/-! ## Claim theorems -/

/-- C3: `verifyPassword` requests a rehash exactly when the stored hash is
a legacy (bcrypt-prefixed) hash and the password matched it; the correct
password validates against its legacy hash with `needsRehash = true`,
against its modern hash with `needsRehash = false`, and a wrong password
yields `{valid := false, needsRehash := false}` on either hash. -/
theorem verifyPassword_rehash_spec :
    (∀ pw h : String, (verifyPassword pw h).needsRehash = true ↔
        (isBcryptHash h = true ∧ (verifyPassword pw h).valid = true)) ∧
    (∀ pw : String, verifyPassword pw (legacyHashOf pw) =
        { valid := true, needsRehash := true }) ∧
    (∀ pw : String, verifyPassword pw (modernHashOf pw) =
        { valid := true, needsRehash := false }) ∧
    (∀ pw wrong : String, wrong ≠ pw →
        verifyPassword wrong (legacyHashOf pw) =
          { valid := false, needsRehash := false } ∧
        verifyPassword wrong (modernHashOf pw) =
          { valid := false, needsRehash := false }) := by
  refine ⟨?_, ?_, ?_, ?_⟩
  · intro pw h
    by_cases hb : isBcryptHash h <;> simp [verifyPassword, hb]
  · intro pw
    simp [verifyPassword, isBcryptHash_legacy, bcryptCompare]
  · intro pw
    simp [verifyPassword, isBcryptHash_modern, argon2Verify]
  · intro pw wrong hne
    constructor
    · have hcmp : bcryptCompare wrong (legacyHashOf pw) = false := by
        simp only [bcryptCompare, beq_eq_false_iff_ne, ne_eq]
        intro h
        exact hne (legacyHashOf_inj h.symm)
      simp [verifyPassword, isBcryptHash_legacy, hcmp]
    · have hcmp : argon2Verify (modernHashOf pw) wrong = false := by
        simp only [argon2Verify, beq_eq_false_iff_ne, ne_eq]
        intro h
        exact hne (modernHashOf_inj h.symm)
      simp [verifyPassword, isBcryptHash_modern, hcmp]

/-- Closed witness for C3's hypothesis-bearing conjunct at a concrete
wrong password. -/
theorem verifyPassword_rehash_spec_witness :
    verifyPassword "hunter2" (legacyHashOf "hunter2") =
      { valid := true, needsRehash := true } ∧
    verifyPassword "guess" (legacyHashOf "hunter2") =
      { valid := false, needsRehash := false } ∧
    verifyPassword "guess" (modernHashOf "hunter2") =
      { valid := false, needsRehash := false } :=
  ⟨verifyPassword_rehash_spec.2.1 "hunter2",
   (verifyPassword_rehash_spec.2.2.2 "hunter2" "guess" (by decide)).1,
   (verifyPassword_rehash_spec.2.2.2 "hunter2" "guess" (by decide)).2⟩

/-- Closed form of `getLockoutDuration` over the reference thresholds. -/
theorem getLockoutDuration_eq (n : Nat) :
    getLockoutDuration n =
      if 15 ≤ n then some 3600000
      else if 10 ≤ n then some 1800000
      else if 5 ≤ n then some 900000
      else none := by
  simp [getLockoutDuration, LOCKOUT_THRESHOLDS, lockoutScan]

/-- Pointwise order on optional lockout durations: `null` below
everything, durations by magnitude. -/
def optDurLe : Option Nat → Option Nat → Prop
  | none, _ => True
  | some _, none => False
  | some d, some d' => d ≤ d'

/-- C4: `getLockoutDuration` is non-decreasing, `null` below the lowest
threshold, and takes the reference values at 4, 5, 9, 10 and 20 failed
attempts. -/
theorem getLockoutDuration_spec :
    (∀ m n : Nat, m ≤ n → optDurLe (getLockoutDuration m) (getLockoutDuration n)) ∧
    (∀ n : Nat, n < 5 → getLockoutDuration n = none) ∧
    getLockoutDuration 4 = none ∧
    getLockoutDuration 5 = some (15 * 60 * 1000) ∧
    getLockoutDuration 9 = some (15 * 60 * 1000) ∧
    getLockoutDuration 10 = some (30 * 60 * 1000) ∧
    getLockoutDuration 20 = some (60 * 60 * 1000) := by
  refine ⟨?_, ?_, by decide, by decide, by decide, by decide, by decide⟩
  · intro m n hmn
    rw [getLockoutDuration_eq, getLockoutDuration_eq]
    split_ifs <;> simp [optDurLe] <;> omega
  · intro n hn
    rw [getLockoutDuration_eq]
    split_ifs <;> first | rfl | omega

/-- Closed witness for C4's hypothesis-bearing conjuncts. -/
theorem getLockoutDuration_spec_witness :
    optDurLe (getLockoutDuration 7) (getLockoutDuration 12) ∧
    getLockoutDuration 3 = none :=
  ⟨getLockoutDuration_spec.1 7 12 (by decide),
   getLockoutDuration_spec.2.1 3 (by decide)⟩

/-! ## Helper lemmas about the store operations -/

theorem findRefreshToken_eq_none_iff (db : DB) (tok : String) :
    findRefreshToken db tok = none ↔
      db.tokens.any (fun t => t.token == tok) = false := by
  simp [findRefreshToken, List.find?_eq_none, List.any_eq_false]

theorem rotateRefreshToken_false_iff (db : DB) (old : String) (nd : RefreshToken) :
    (rotateRefreshToken db old nd).2 = false ↔ findRefreshToken db old = none := by
  rw [findRefreshToken_eq_none_iff]
  by_cases h : db.tokens.any (fun t => t.token == old) = true
  · simp [rotateRefreshToken, deleteRefreshTokenRaw, h]
  · simp only [Bool.not_eq_true] at h
    simp [rotateRefreshToken, deleteRefreshTokenRaw, h]

theorem rotateRefreshToken_false_state (db : DB) (old : String) (nd : RefreshToken)
    (h : (rotateRefreshToken db old nd).2 = false) :
    (rotateRefreshToken db old nd).1 = db := by
  by_cases hx : db.tokens.any (fun t => t.token == old) = true <;>
    simp [rotateRefreshToken, deleteRefreshTokenRaw, hx] at h ⊢

/-- C1: a refresh call hands out the new token pair only when the atomic
rotation succeeded; when the old token row is already gone at rotation
time, `rotateRefreshToken` reports `false` and leaves the store untouched
(all-or-nothing), and the refresh commit phase fails with
`Unauthorized` "Refresh token already used" without issuing a new
refresh token. -/
theorem refresh_rotation_spec :
    (∀ (db : DB) (old : String) (nd : RefreshToken),
        ((rotateRefreshToken db old nd).2 = false ↔ findRefreshToken db old = none) ∧
        ((rotateRefreshToken db old nd).2 = false →
          (rotateRefreshToken db old nd).1 = db)) ∧
    (∀ (db : DB) (user : User) (old newTok : String) (now : Nat),
        findRefreshToken db old = none →
        refreshFinish db old user newTok now =
          (db, Except.error
            (UnauthorizedError "Refresh token already used" "INVALID_REFRESH_TOKEN"))) ∧
    (∀ (db db' : DB) (user : User) (old newTok : String) (now : Nat) (pair : TokenPair),
        refreshFinish db old user newTok now = (db', Except.ok pair) →
        (rotateRefreshToken db old
          { token := newTok, userId := user.id,
            expiresAt := getRefreshTokenExpiresAt now, createdAt := now }).2 = true) := by
  refine ⟨fun db old nd => ⟨rotateRefreshToken_false_iff db old nd,
      rotateRefreshToken_false_state db old nd⟩, ?_, ?_⟩
  · intro db user old newTok now h
    have hfalse := (rotateRefreshToken_false_iff db old
      { token := newTok, userId := user.id,
        expiresAt := getRefreshTokenExpiresAt now, createdAt := now }).2 h
    have hstate := rotateRefreshToken_false_state db old
      { token := newTok, userId := user.id,
        expiresAt := getRefreshTokenExpiresAt now, createdAt := now } hfalse
    simp only [refreshFinish]
    rcases hr : rotateRefreshToken db old
      { token := newTok, userId := user.id,
        expiresAt := getRefreshTokenExpiresAt now, createdAt := now } with ⟨db1, rotated⟩
    rw [hr] at hfalse hstate
    simp at hfalse hstate
    subst hfalse hstate
    simp
  · intro db db' user old newTok now pair h
    rcases hr : rotateRefreshToken db old
      { token := newTok, userId := user.id,
        expiresAt := getRefreshTokenExpiresAt now, createdAt := now } with ⟨db1, rotated⟩
    cases rotated
    · simp only [refreshFinish, hr] at h
      simp at h
    · rfl

/-- Closed witness for C1 at a one-token store whose token has already
been consumed. -/
theorem refresh_rotation_spec_witness :
    refreshFinish { users := [], tokens := [], sessions := [] } "gone"
        { id := 1, email := "a@b.c", password := "h", firstName := "A",
          lastName := "B", avatarUrl := none, role := UserRole.user,
          isActive := true, deletedAt := none, failedLoginAttempts := 0,
          lockedUntil := none, createdAt := 0, updatedAt := 0 }
        "fresh" 1000 =
      ({ users := [], tokens := [], sessions := [] },
       Except.error
         (UnauthorizedError "Refresh token already used" "INVALID_REFRESH_TOKEN")) :=
  refresh_rotation_spec.2.1
    { users := [], tokens := [], sessions := [] }
    { id := 1, email := "a@b.c", password := "h", firstName := "A",
      lastName := "B", avatarUrl := none, role := UserRole.user,
      isActive := true, deletedAt := none, failedLoginAttempts := 0,
      lockedUntil := none, createdAt := 0, updatedAt := 0 }
    "gone" "fresh" 1000 (by decide)

/-- The repository-level delete of a refresh token always completes:
Prisma's `P2025` ("row already gone") is swallowed. -/
theorem deleteRefreshToken_ok (db : DB) (tok : String) :
    (deleteRefreshToken db tok).2 = Except.ok () := by
  by_cases h : db.tokens.any (fun t => t.token == tok) = true <;>
    simp [deleteRefreshToken, deleteRefreshTokenRaw, h]

/-- C5: `logout` never surfaces an error — every failure inside its body
(token lookup, token delete, session lookup, session delete) is swallowed
by the surrounding `try`/`catch`; in particular a second `logout` with the
same, already-deleted token still completes, and the repository-level
token delete itself swallows the "row already gone" error. -/
theorem logout_never_throws :
    (∀ (db : DB) (tok : String) (now : Nat),
        (logout db tok now).2 = Except.ok ()) ∧
    (∀ (db : DB) (tok : String) (now now' : Nat),
        (logout (logout db tok now).1 tok now').2 = Except.ok ()) ∧
    (∀ (db : DB) (tok : String),
        (deleteRefreshToken (deleteRefreshToken db tok).1 tok).2 = Except.ok ()) := by
  have hok : ∀ (db : DB) (tok : String) (now : Nat),
      (logout db tok now).2 = Except.ok () := by
    intro db tok now
    rcases h : logoutBody db tok now with ⟨db', r⟩
    simp [logout, h]
  exact ⟨hok, fun db tok now now' => hok _ tok now',
    fun db tok => deleteRefreshToken_ok _ tok⟩

/-- After the expired-token branch of `refresh` the stored token is gone. -/
theorem findRefreshToken_filter_self (db : DB) (tok : String) :
    findRefreshToken
      { db with tokens := db.tokens.filter fun t => t.token != tok } tok = none := by
  rw [findRefreshToken]
  rw [List.find?_eq_none]
  intro t ht
  have := (List.mem_filter.1 ht).2
  simpa using this

/-- C6: the three refresh failure modes and their distinct identities —
an absent token fails `Unauthorized` "Invalid refresh token"
(`INVALID_REFRESH_TOKEN`); an expired token is deleted from the store and
fails "Refresh token expired" (`REFRESH_TOKEN_EXPIRED`); a token already
consumed at rotation time fails "Refresh token already used"; no two of
the three carry the same (code, message) pair. -/
theorem refresh_failure_modes :
    (∀ (db : DB) (tok newTok : String) (now : Nat),
        findRefreshToken db tok = none →
        refresh db tok now newTok =
          (db, Except.error
            (UnauthorizedError "Invalid refresh token" "INVALID_REFRESH_TOKEN"))) ∧
    (∀ (db : DB) (tok newTok : String) (now : Nat) (st : RefreshToken),
        findRefreshToken db tok = some st → st.expiresAt < now →
        refresh db tok now newTok =
          ({ db with tokens := db.tokens.filter fun t => t.token != tok },
           Except.error
             (UnauthorizedError "Refresh token expired" "REFRESH_TOKEN_EXPIRED")) ∧
        findRefreshToken (refresh db tok now newTok).1 tok = none) ∧
    (∀ (db : DB) (user : User) (old newTok : String) (now : Nat),
        findRefreshToken db old = none →
        (refreshFinish db old user newTok now).2 =
          Except.error
            (UnauthorizedError "Refresh token already used" "INVALID_REFRESH_TOKEN")) ∧
    ((UnauthorizedError "Invalid refresh token" "INVALID_REFRESH_TOKEN" ≠
        UnauthorizedError "Refresh token expired" "REFRESH_TOKEN_EXPIRED") ∧
     (UnauthorizedError "Invalid refresh token" "INVALID_REFRESH_TOKEN" ≠
        UnauthorizedError "Refresh token already used" "INVALID_REFRESH_TOKEN") ∧
     (UnauthorizedError "Refresh token expired" "REFRESH_TOKEN_EXPIRED" ≠
        UnauthorizedError "Refresh token already used" "INVALID_REFRESH_TOKEN")) := by
  refine ⟨?_, ?_, ?_, by decide, by decide, by decide⟩
  · intro db tok newTok now h
    simp [refresh, refreshValidate, h]
  · intro db tok newTok now st h hexp
    have hany : db.tokens.any (fun t => t.token == tok) = true := by
      rcases List.mem_of_find?_eq_some h with hmem
      have hp := List.find?_some h
      exact List.any_eq_true.2 ⟨st, hmem, hp⟩
    have hdel : deleteRefreshToken db tok =
        ({ db with tokens := db.tokens.filter fun t => t.token != tok },
         Except.ok ()) := by
      simp [deleteRefreshToken, deleteRefreshTokenRaw, hany]
    constructor
    · simp [refresh, refreshValidate, h, hexp, hdel]
    · simp [refresh, refreshValidate, h, hexp, hdel,
        findRefreshToken_filter_self]
  · intro db user old newTok now h
    have hfalse := (rotateRefreshToken_false_iff db old
      { token := newTok, userId := user.id,
        expiresAt := getRefreshTokenExpiresAt now, createdAt := now }).2 h
    have hstate := rotateRefreshToken_false_state db old
      { token := newTok, userId := user.id,
        expiresAt := getRefreshTokenExpiresAt now, createdAt := now } hfalse
    rcases hr : rotateRefreshToken db old
      { token := newTok, userId := user.id,
        expiresAt := getRefreshTokenExpiresAt now, createdAt := now } with ⟨db1, rotated⟩
    rw [hr] at hfalse hstate
    simp only at hfalse hstate
    subst hfalse hstate
    simp [refreshFinish, hr]

/-- Closed witness for C6 at a one-token store: the token is expired, the
refresh call deletes it and reports "Refresh token expired". -/
theorem refresh_failure_modes_witness :
    refresh
        { users := [],
          tokens := [{ token := "t0", userId := 1, expiresAt := 500, createdAt := 0 }],
          sessions := [] } "t0" 1000 "t1" =
      ({ users := [], tokens := [], sessions := [] },
       Except.error
         (UnauthorizedError "Refresh token expired" "REFRESH_TOKEN_EXPIRED")) :=
  ((refresh_failure_modes.2.1
      { users := [],
        tokens := [{ token := "t0", userId := 1, expiresAt := 500, createdAt := 0 }],
        sessions := [] } "t0" "t1" 1000
      { token := "t0", userId := 1, expiresAt := 500, createdAt := 0 }
      (by decide) (by decide)).1).trans (by rfl)

theorem findUserByEmail_eq_none_iff (db : DB) (email : String) :
    findUserByEmail db email = none ↔
      ∀ u ∈ db.users, ¬(u.email = email ∧ u.deletedAt = none) := by
  rw [findUserByEmail, List.find?_eq_none]
  constructor
  · intro h u hu hc
    exact h u hu (by simp [hc.1, hc.2])
  · intro h u hu hp
    simp only [Bool.and_eq_true, beq_iff_eq] at hp
    exact h u hu ⟨hp.1, hp.2⟩

/-- Sample fixtures used by the closed witnesses. -/
def sampleUser : User :=
  { id := 1, email := "user@example.com", password := hashPassword "correct horse",
    firstName := "Ada", lastName := "Lovelace", avatarUrl := none,
    role := UserRole.user, isActive := true, deletedAt := none,
    failedLoginAttempts := 0, lockedUntil := none, createdAt := 0, updatedAt := 0 }

def sampleDB : DB := { users := [sampleUser], tokens := [], sessions := [] }

def sampleCtx : CallCtx :=
  { now := 1000000, freshToken := "rt-1", freshUserId := 2, freshSessionId := 3 }

/-- C2: every `login` failure — unknown email, soft-deleted user,
disabled account, active lock, or wrong password — produces the very same
`Unauthorized` error: code `INVALID_CREDENTIALS`, message
"Invalid email or password". -/
theorem login_uniform_invalid_credentials :
    ∀ (db : DB) (ctx : CallCtx) (input : LoginInput) (di ip : Option String),
      ((∀ u ∈ db.users, u.email ≠ input.email) →
        (login db ctx input di ip).2 = Except.error
          (UnauthorizedError "Invalid email or password" "INVALID_CREDENTIALS")) ∧
      ((∀ u ∈ db.users, u.email = input.email → u.deletedAt ≠ none) →
        (login db ctx input di ip).2 = Except.error
          (UnauthorizedError "Invalid email or password" "INVALID_CREDENTIALS")) ∧
      (∀ u : User, findUserByEmail db input.email = some u → u.isActive = false →
        (login db ctx input di ip).2 = Except.error
          (UnauthorizedError "Invalid email or password" "INVALID_CREDENTIALS")) ∧
      (∀ (u : User) (t : Nat), findUserByEmail db input.email = some u →
        u.lockedUntil = some t → ctx.now < t →
        (login db ctx input di ip).2 = Except.error
          (UnauthorizedError "Invalid email or password" "INVALID_CREDENTIALS")) ∧
      (∀ u : User, findUserByEmail db input.email = some u →
        (verifyPassword input.password u.password).valid = false →
        (login db ctx input di ip).2 = Except.error
          (UnauthorizedError "Invalid email or password" "INVALID_CREDENTIALS")) := by
  intro db ctx input di ip
  refine ⟨?_, ?_, ?_, ?_, ?_⟩
  · intro h
    have hnone : findUserByEmail db input.email = none :=
      (findUserByEmail_eq_none_iff db input.email).2
        (fun u hu hc => h u hu hc.1)
    simp [login, hnone]
  · intro h
    have hnone : findUserByEmail db input.email = none :=
      (findUserByEmail_eq_none_iff db input.email).2
        (fun u hu hc => h u hu hc.1 hc.2)
    simp [login, hnone]
  · intro u hfind hact
    simp [login, hfind, hact]
  · intro u t hfind hlockt hnow
    by_cases hact : u.isActive = true
    · simp [login, hfind, hact, hlockt, Option.any, hnow]
    · simp only [Bool.not_eq_true] at hact
      simp [login, hfind, hact]
  · intro u hfind hval
    by_cases hact : u.isActive = true
    · by_cases hlock : u.lockedUntil.any (fun t => decide (ctx.now < t)) = true
      · simp [login, hfind, hact, hlock]
      · simp only [Bool.not_eq_true] at hlock
        simp [login, hfind, hact, hlock, hval]
    · simp only [Bool.not_eq_true] at hact
      simp [login, hfind, hact]

/-- Closed witness for C2: a wrong password against the sample user fails
with the generic credentials error, identical to the unknown-email case. -/
theorem login_uniform_invalid_credentials_witness :
    (login sampleDB sampleCtx
        { email := "user@example.com", password := "wrong" } none none).2 =
      Except.error (UnauthorizedError "Invalid email or password" "INVALID_CREDENTIALS") ∧
    (login sampleDB sampleCtx
        { email := "nobody@example.com", password := "wrong" } none none).2 =
      Except.error (UnauthorizedError "Invalid email or password" "INVALID_CREDENTIALS") :=
  ⟨(login_uniform_invalid_credentials sampleDB sampleCtx
      { email := "user@example.com", password := "wrong" } none none).2.2.2.2
      sampleUser (by decide) (by decide),
   (login_uniform_invalid_credentials sampleDB sampleCtx
      { email := "nobody@example.com", password := "wrong" } none none).1
      (by decide)⟩

/-- C7: `register` fails with `Conflict` (`EMAIL_ALREADY_EXISTS`) exactly
when a non-soft-deleted user with the email already exists, and on that
path the store is untouched — no user row, token row or session row is
created; without such a user the call succeeds. -/
theorem register_conflict_spec :
    ∀ (db : DB) (ctx : CallCtx) (input : RegisterInput) (di ip : Option String),
      ((∃ u ∈ db.users, u.email = input.email ∧ u.deletedAt = none) →
        register db ctx input di ip =
          (db, Except.error
            (ConflictError "Email already registered" "EMAIL_ALREADY_EXISTS"))) ∧
      ((∀ u ∈ db.users, ¬(u.email = input.email ∧ u.deletedAt = none)) →
        ∃ r : AuthResult, (register db ctx input di ip).2 = Except.ok r) := by
  intro db ctx input di ip
  constructor
  · intro h
    rcases h with ⟨u, hu, he, hd⟩
    have : ∃ v, findUserByEmail db input.email = some v := by
      rcases ho : findUserByEmail db input.email with _ | v
      · exact absurd ((findUserByEmail_eq_none_iff db input.email).1 ho u hu)
          (by simp [he, hd])
      · exact ⟨v, rfl⟩
    rcases this with ⟨v, hv⟩
    simp [register, hv]
  · intro h
    have hnone : findUserByEmail db input.email = none :=
      (findUserByEmail_eq_none_iff db input.email).2 h
    simp only [register, hnone]
    exact ⟨_, rfl⟩

/-- Closed witness for C7: registering the sample user's email again
conflicts and leaves the store unchanged; a fresh email succeeds. -/
theorem register_conflict_spec_witness :
    register sampleDB sampleCtx
        { email := "user@example.com", password := "pw", firstName := "A",
          lastName := "B" } none none =
      (sampleDB, Except.error
        (ConflictError "Email already registered" "EMAIL_ALREADY_EXISTS")) ∧
    ∃ r : AuthResult,
      (register sampleDB sampleCtx
          { email := "new@example.com", password := "pw", firstName := "A",
            lastName := "B" } none none).2 = Except.ok r :=
  ⟨(register_conflict_spec sampleDB sampleCtx
      { email := "user@example.com", password := "pw", firstName := "A",
        lastName := "B" } none none).1
      ⟨sampleUser, by decide, by decide, by decide⟩,
   (register_conflict_spec sampleDB sampleCtx
      { email := "new@example.com", password := "pw", firstName := "A",
        lastName := "B" } none none).2
      (by decide)⟩

theorem verifyPassword_modern (pw : String) :
    verifyPassword pw (modernHashOf pw) = { valid := true, needsRehash := false } := by
  simp [verifyPassword, isBcryptHash_modern, argon2Verify]

/-- A fresh, unlocked, active user whose stored hash is the modern hash
of `pw` logs in successfully and receives the sanitized profile. -/
theorem login_fresh_user (db : DB) (ctx : CallCtx) (email pw : String) (u : User)
    (di ip : Option String)
    (hfind : findUserByEmail db email = some u)
    (hact : u.isActive = true) (hlock : u.lockedUntil = none)
    (hatt : u.failedLoginAttempts = 0)
    (hpw : u.password = hashPassword pw) :
    (login db ctx { email := email, password := pw } di ip).2 =
      Except.ok
        { user := sanitizeUser u,
          accessToken := signAccessToken u.id u.role,
          refreshToken := ctx.freshToken } := by
  have hv : verifyPassword pw u.password = { valid := true, needsRehash := false } := by
    rw [hpw]
    exact verifyPassword_modern pw
  simp [login, hfind, hact, hlock, hatt, hv]

theorem find?_users_append (us : List User) (u : User) (email : String)
    (hnone : us.find? (fun x => x.email == email && x.deletedAt == none) = none)
    (hu : u.email = email) (hd : u.deletedAt = none) :
    (us ++ [u]).find? (fun x => x.email == email && x.deletedAt == none) = some u := by
  rw [List.find?_append, hnone]
  simp [hu, hd]

/-- C8: `sanitizeUser` is insensitive to the password column (no password
field survives into the returned object), and `register` followed
immediately by `login` with the same email and password succeeds, both
calls answering the same sanitized user. -/
theorem register_then_login_sanitized :
    (∀ (u : User) (p : String), sanitizeUser { u with password := p } = sanitizeUser u) ∧
    (∀ (db : DB) (ctx1 ctx2 : CallCtx) (input : RegisterInput)
        (di ip di2 ip2 : Option String),
      findUserByEmail db input.email = none →
      (register db ctx1 input di ip).2 =
        Except.ok
          { user := sanitizeUser (createUser db ctx1.freshUserId ctx1.now
              input.email (hashPassword input.password) input.firstName input.lastName).1,
            accessToken := signAccessToken ctx1.freshUserId UserRole.user,
            refreshToken := ctx1.freshToken } ∧
      (login (register db ctx1 input di ip).1 ctx2
          { email := input.email, password := input.password } di2 ip2).2 =
        Except.ok
          { user := sanitizeUser (createUser db ctx1.freshUserId ctx1.now
              input.email (hashPassword input.password) input.firstName input.lastName).1,
            accessToken := signAccessToken ctx1.freshUserId UserRole.user,
            refreshToken := ctx2.freshToken }) := by
  constructor
  · intro u p
    rfl
  · intro db ctx1 ctx2 input di ip di2 ip2 hnone
    constructor
    · simp [register, hnone, createUser]
    · have hfind1 : findUserByEmail (register db ctx1 input di ip).1 input.email =
          some (createUser db ctx1.freshUserId ctx1.now
            input.email (hashPassword input.password) input.firstName input.lastName).1 := by
        simp only [register, hnone, createUser, createRefreshToken, createSession]
        rw [findUserByEmail]
        exact find?_users_append db.users _ input.email hnone rfl rfl
      exact login_fresh_user _ ctx2 input.email input.password _ di2 ip2
        hfind1 rfl rfl rfl rfl

/-- Closed witness for C8: registering a fresh email on the sample store
and immediately logging in with the same credentials both succeed with
the same sanitized user. -/
theorem register_then_login_sanitized_witness :
    (register sampleDB sampleCtx
        { email := "new@example.com", password := "pw2", firstName := "N",
          lastName := "U" } none none).2 =
      Except.ok
        { user := sanitizeUser (createUser sampleDB sampleCtx.freshUserId sampleCtx.now
            "new@example.com" (hashPassword "pw2") "N" "U").1,
          accessToken := signAccessToken sampleCtx.freshUserId UserRole.user,
          refreshToken := sampleCtx.freshToken } ∧
    (login (register sampleDB sampleCtx
        { email := "new@example.com", password := "pw2", firstName := "N",
          lastName := "U" } none none).1 sampleCtx
        { email := "new@example.com", password := "pw2" } none none).2 =
      Except.ok
        { user := sanitizeUser (createUser sampleDB sampleCtx.freshUserId sampleCtx.now
            "new@example.com" (hashPassword "pw2") "N" "U").1,
          accessToken := signAccessToken sampleCtx.freshUserId UserRole.user,
          refreshToken := sampleCtx.freshToken } :=
  register_then_login_sanitized.2 sampleDB sampleCtx sampleCtx
    { email := "new@example.com", password := "pw2", firstName := "N", lastName := "U" }
    none none none none (by decide)

/-! ## Session matching on logout -/

theorem mem_getUserSessions {db : DB} {uid now : Nat} {s : Session}
    (h : s ∈ getUserSessions db uid now) :
    s ∈ db.sessions ∧ s.userId = uid ∧ now < s.expiresAt := by
  rw [getUserSessions, List.mem_mergeSort] at h
  rcases List.mem_filter.1 h with ⟨hmem, hp⟩
  simp only [Bool.and_eq_true, beq_iff_eq, decide_eq_true_eq] at hp
  exact ⟨hmem, hp.1, hp.2⟩

theorem length_le_filter_ne_id (l : List Session) (i : Nat)
    (h : (l.map Session.id).Nodup) :
    l.length ≤ (l.filter fun s => s.id != i).length + 1 := by
  induction l with
  | nil => simp
  | cons a t ih =>
    simp only [List.map_cons, List.nodup_cons] at h
    by_cases ha : a.id = i
    · have hkeep : t.filter (fun s => s.id != i) = t := by
        rw [List.filter_eq_self]
        intro s hs
        have hne : s.id ≠ i := by
          intro he
          have hmap : s.id ∈ t.map Session.id := List.mem_map_of_mem _ hs
          rw [he, ← ha] at hmap
          exact h.1 hmap
        simpa using hne
      have hfa : (a.id != i) = false := by simpa using ha
      simp [List.filter_cons, hfa, hkeep]
    · have hfa : (a.id != i) = true := by simpa using ha
      have := ih h.2
      simp [List.filter_cons, hfa]
      omega

/-- C9: when `logout` finds the stored token, a session is deleted only
if it belongs to the token's user, is unexpired, and its creation instant
lies strictly within 5000 ms of the token's; at most one session is
deleted (given unique session ids); and when no session of the user lies
within the tolerance, the session table is left untouched. -/
theorem logout_session_tolerance (db : DB) (tok : String) (now : Nat) (st : RefreshToken)
    (hst : findRefreshToken db tok = some st)
    (hids : (db.sessions.map Session.id).Nodup) :
    (∀ s ∈ db.sessions, s ∉ (logout db tok now).1.sessions →
        absDiff s.createdAt st.createdAt < 5000 ∧ s.userId = st.userId ∧
        now < s.expiresAt) ∧
    db.sessions.length ≤ (logout db tok now).1.sessions.length + 1 ∧
    ((∀ s ∈ db.sessions, s.userId = st.userId →
        ¬(absDiff s.createdAt st.createdAt < 5000)) →
      (logout db tok now).1.sessions = db.sessions) := by
  have hst' : db.tokens.find? (fun t => t.token == tok) = some st := hst
  have hps := List.find?_some hst'
  have hany : db.tokens.any (fun t => t.token == tok) = true :=
    List.any_eq_true.2 ⟨st, List.mem_of_find?_eq_some hst', hps⟩
  have hdel : deleteRefreshToken db tok =
      ({ db with tokens := db.tokens.filter fun t => t.token != tok }, Except.ok ()) := by
    simp [deleteRefreshToken, deleteRefreshTokenRaw, hany]
  rcases hm : (getUserSessions
      { db with tokens := db.tokens.filter fun t => t.token != tok }
      st.userId now).find?
        (fun s => decide (absDiff s.createdAt st.createdAt < 5000)) with _ | m
  · have hsess : (logout db tok now).1.sessions = db.sessions := by
      simp [logout, logoutBody, hst, hdel, hm]
    refine ⟨?_, ?_, fun _ => hsess⟩
    · intro s hs hns
      rw [hsess] at hns
      exact absurd hs hns
    · rw [hsess]
      omega
  · have hpm : absDiff m.createdAt st.createdAt < 5000 := by
      have := List.find?_some hm
      simpa using this
    have hm3 := mem_getUserSessions (List.mem_of_find?_eq_some hm)
    have hmdb : m ∈ db.sessions := hm3.1
    have hanys : ({ db with tokens := db.tokens.filter fun t => t.token != tok } : DB).sessions.any
        (fun s => s.id == m.id) = true :=
      List.any_eq_true.2 ⟨m, hmdb, by simp⟩
    have hsess : (logout db tok now).1.sessions =
        db.sessions.filter fun s => s.id != m.id := by
      simp [logout, logoutBody, hst, hdel, hm, deleteSessionRaw, hanys]
    refine ⟨?_, ?_, ?_⟩
    · intro s hs hns
      rw [hsess] at hns
      have hid : s.id = m.id := by
        by_contra hne
        exact hns (List.mem_filter.2 ⟨hs, by simpa using hne⟩)
      have hsm : s = m := List.inj_on_of_nodup_map hids hs hmdb hid
      rw [hsm]
      exact ⟨hpm, hm3.2.1, hm3.2.2⟩
    · rw [hsess]
      exact length_le_filter_ne_id db.sessions m.id hids
    · intro hno
      exact absurd hpm (hno m hmdb hm3.2.1)

/-- Fixtures for the C9 witness: one stored token and one session created
2000 ms apart (inside the 5-second window). -/
def sampleLogoutToken : RefreshToken :=
  { token := "t0", userId := 1, expiresAt := 2000000, createdAt := 1000 }

def sampleLogoutSession : Session :=
  { id := 9, userId := 1, deviceInfo := none, ipAddress := none,
    lastActiveAt := 1000, expiresAt := 2000000, createdAt := 3000 }

def sampleLogoutDB : DB :=
  { users := [], tokens := [sampleLogoutToken], sessions := [sampleLogoutSession] }

/-- Closed witness for C9: on the sample store the logout deletes at most
one session, and the one it deletes is within tolerance. -/
theorem logout_session_tolerance_witness :
    sampleLogoutDB.sessions.length ≤
      (logout sampleLogoutDB "t0" 5000).1.sessions.length + 1 ∧
    (sampleLogoutSession ∈ sampleLogoutDB.sessions →
      sampleLogoutSession ∉ (logout sampleLogoutDB "t0" 5000).1.sessions →
      absDiff sampleLogoutSession.createdAt sampleLogoutToken.createdAt < 5000 ∧
      sampleLogoutSession.userId = sampleLogoutToken.userId ∧
      5000 < sampleLogoutSession.expiresAt) :=
  ⟨(logout_session_tolerance sampleLogoutDB "t0" 5000 sampleLogoutToken
      (by decide) (by decide)).2.1,
   (logout_session_tolerance sampleLogoutDB "t0" 5000 sampleLogoutToken
      (by decide) (by decide)).1 sampleLogoutSession⟩

/-! ## Lookup lemmas for user-row updates -/

theorem find?_map_update (l : List User) (id : Nat) (f : User → User)
    (hid : ∀ u, (f u).id = u.id) (hdel : ∀ u, (f u).deletedAt = u.deletedAt) :
    (l.map fun u => if u.id == id then f u else u).find?
        (fun u => u.id == id && u.deletedAt == none) =
      (l.find? (fun u => u.id == id && u.deletedAt == none)).map f := by
  induction l with
  | nil => rfl
  | cons a t ih =>
    simp only [List.map_cons]
    by_cases ha : (a.id == id) = true
    · rw [if_pos ha]
      by_cases hd : (a.deletedAt == none) = true
      · rw [List.find?_cons_of_pos (p := fun (u : User) => u.id == id && u.deletedAt == none) _
            (by simp [hid a, hdel a, ha, hd]),
          List.find?_cons_of_pos (p := fun (u : User) => u.id == id && u.deletedAt == none) _
            (by simp [ha, hd])]
        rfl
      · have hdb : (a.deletedAt == none) = false := by simpa using hd
        rw [List.find?_cons_of_neg (p := fun (u : User) => u.id == id && u.deletedAt == none) _
            (by simp [hid a, hdel a, hdb]),
          List.find?_cons_of_neg (p := fun (u : User) => u.id == id && u.deletedAt == none) _
            (by simp [hdb])]
        exact ih
    · have hfa : (a.id == id) = false := by simpa using ha
      rw [if_neg ha,
        List.find?_cons_of_neg (p := fun (u : User) => u.id == id && u.deletedAt == none) _
          (by simp [hfa]),
        List.find?_cons_of_neg (p := fun (u : User) => u.id == id && u.deletedAt == none) _
          (by simp [hfa])]
      exact ih

theorem find?_user_mem_nodup (l : List User) (u : User)
    (hmem : u ∈ l) (hdel : u.deletedAt = none)
    (hnodup : (l.map User.id).Nodup) :
    l.find? (fun x => x.id == u.id && x.deletedAt == none) = some u := by
  induction l with
  | nil => cases hmem
  | cons a t ih =>
    simp only [List.map_cons, List.nodup_cons] at hnodup
    rcases List.mem_cons.1 hmem with rfl | hm
    · exact List.find?_cons_of_pos _ (by simp [hdel])
    · have hne : (a.id == u.id) = false := by
        have hne' : a.id ≠ u.id := by
          intro he
          apply hnodup.1
          rw [he]
          exact List.mem_map_of_mem _ hm
        simpa using hne'
      rw [List.find?_cons_of_neg _ (by simp [hne])]
      exact ih hm hnodup.2

theorem findUserById_updateUserRow (db : DB) (id : Nat) (f : User → User)
    (hid : ∀ u, (f u).id = u.id) (hdel : ∀ u, (f u).deletedAt = u.deletedAt) :
    findUserById (updateUserRow db id f) id = (findUserById db id).map f :=
  find?_map_update db.users id f hid hdel

theorem getLockoutDuration_step (n : Nat) (h : 5 ≤ n) :
    ∃ d d', getLockoutDuration n = some d ∧
      getLockoutDuration (n + 1) = some d' ∧ d ≤ d' := by
  rw [getLockoutDuration_eq, getLockoutDuration_eq]
  split_ifs <;> first
    | exact ⟨_, _, rfl, rfl, by omega⟩
    | (exfalso; omega)

/-- The failed-verification branch of `login`: the counter is incremented
(never reset), the lock is set per the lockout table, and the generic
credentials error is thrown. -/
theorem login_failed_updates (db : DB) (ctx : CallCtx) (input : LoginInput)
    (di ip : Option String) (u : User)
    (hnodup : (db.users.map User.id).Nodup)
    (hfind : findUserByEmail db input.email = some u)
    (hact : u.isActive = true)
    (hlock : u.lockedUntil.any (fun t => decide (ctx.now < t)) = false)
    (hval : (verifyPassword input.password u.password).valid = false) :
    ∃ u' : User,
      findUserById (login db ctx input di ip).1 u.id = some u' ∧
      u'.failedLoginAttempts = u.failedLoginAttempts + 1 ∧
      u'.lockedUntil = (match getLockoutDuration (u.failedLoginAttempts + 1) with
        | some d => some (ctx.now + d)
        | none => u.lockedUntil) ∧
      (login db ctx input di ip).2 =
        Except.error (UnauthorizedError "Invalid email or password" "INVALID_CREDENTIALS") := by
  have hfind' : db.users.find? (fun x => x.email == input.email && x.deletedAt == none) =
      some u := hfind
  have hpu := List.find?_some hfind'
  simp only [Bool.and_eq_true, beq_iff_eq] at hpu
  have hmemu : u ∈ db.users := List.mem_of_find?_eq_some hfind'
  have hbase : findUserById db u.id = some u :=
    find?_user_mem_nodup db.users u hmemu hpu.2 hnodup
  have hinc : findUserById (incrementFailedAttempts db u.id) u.id =
      some { u with failedLoginAttempts := u.failedLoginAttempts + 1 } := by
    have hc := findUserById_updateUserRow db u.id
      (fun v => { v with failedLoginAttempts := v.failedLoginAttempts + 1 })
      (fun _ => rfl) (fun _ => rfl)
    rw [incrementFailedAttempts, hc, hbase]
    rfl
  rcases hld : getLockoutDuration (u.failedLoginAttempts + 1) with _ | d
  · have hlogin : login db ctx input di ip =
        (incrementFailedAttempts db u.id,
         Except.error (UnauthorizedError "Invalid email or password" "INVALID_CREDENTIALS")) := by
      simp [login, hfind, hact, hlock, hval, hld]
    rw [hlogin]
    exact ⟨_, hinc, rfl, rfl, rfl⟩
  · have hlogin : login db ctx input di ip =
        (setAccountLock (incrementFailedAttempts db u.id) u.id (ctx.now + d),
         Except.error (UnauthorizedError "Invalid email or password" "INVALID_CREDENTIALS")) := by
      simp [login, hfind, hact, hlock, hval, hld]
    have hlockset : findUserById
        (setAccountLock (incrementFailedAttempts db u.id) u.id (ctx.now + d)) u.id =
        some { u with failedLoginAttempts := u.failedLoginAttempts + 1,
                      lockedUntil := some (ctx.now + d) } := by
      have hc := findUserById_updateUserRow (incrementFailedAttempts db u.id) u.id
        (fun v => { v with lockedUntil := some (ctx.now + d) })
        (fun _ => rfl) (fun _ => rfl)
      rw [setAccountLock, hc, hinc]
      rfl
    rw [hlogin]
    exact ⟨_, hlockset, rfl, rfl, rfl⟩

theorem findUserById_createRefreshToken (db : DB) (tok : String) (uid e n i : Nat) :
    findUserById (createRefreshToken db tok uid e n) i = findUserById db i := rfl

theorem findUserById_createSession (db : DB) (sid uid : Nat)
    (di ip : Option String) (e n i : Nat) :
    findUserById (createSession db sid uid di ip e n) i = findUserById db i := rfl

/-- The successful-verification branch of `login`: the failed-attempt
counter and the lock end up cleared. -/
theorem login_success_resets (db : DB) (ctx : CallCtx) (input : LoginInput)
    (di ip : Option String) (u : User)
    (hnodup : (db.users.map User.id).Nodup)
    (hfind : findUserByEmail db input.email = some u)
    (hact : u.isActive = true)
    (hlock : u.lockedUntil.any (fun t => decide (ctx.now < t)) = false)
    (hval : (verifyPassword input.password u.password).valid = true) :
    ∃ u' : User,
      findUserById (login db ctx input di ip).1 u.id = some u' ∧
      u'.failedLoginAttempts = 0 ∧ u'.lockedUntil = none := by
  have hfind' : db.users.find? (fun x => x.email == input.email && x.deletedAt == none) =
      some u := hfind
  have hpu := List.find?_some hfind'
  simp only [Bool.and_eq_true, beq_iff_eq] at hpu
  have hmemu : u ∈ db.users := List.mem_of_find?_eq_some hfind'
  have hbase : findUserById db u.id = some u :=
    find?_user_mem_nodup db.users u hmemu hpu.2 hnodup
  by_cases hreset : (u.failedLoginAttempts > 0 || u.lockedUntil != none) = true
  · have hres : findUserById (resetFailedAttempts db u.id) u.id =
        some { u with failedLoginAttempts := 0, lockedUntil := none } := by
      have hc := findUserById_updateUserRow db u.id
        (fun v => { v with failedLoginAttempts := 0, lockedUntil := none })
        (fun _ => rfl) (fun _ => rfl)
      rw [resetFailedAttempts, hc, hbase]
      rfl
    by_cases hrh : (verifyPassword input.password u.password).needsRehash = true
    · have hlogin : (login db ctx input di ip).1 =
          createSession (createRefreshToken
            (updateUserPassword (resetFailedAttempts db u.id) u.id
              (hashPassword input.password))
            ctx.freshToken u.id (getRefreshTokenExpiresAt ctx.now) ctx.now)
            ctx.freshSessionId u.id di ip (getRefreshTokenExpiresAt ctx.now) ctx.now := by
        simp [login, hfind, hact, hlock, hval, hreset, hrh]
      have hpw : findUserById (updateUserPassword (resetFailedAttempts db u.id) u.id
          (hashPassword input.password)) u.id =
          some { u with failedLoginAttempts := 0, lockedUntil := none,
                        password := hashPassword input.password } := by
        have hc := findUserById_updateUserRow (resetFailedAttempts db u.id) u.id
          (fun v => { v with password := hashPassword input.password })
          (fun _ => rfl) (fun _ => rfl)
        rw [updateUserPassword, hc, hres]
        rfl
      rw [hlogin, findUserById_createSession, findUserById_createRefreshToken]
      exact ⟨_, hpw, rfl, rfl⟩
    · have hlogin : (login db ctx input di ip).1 =
          createSession (createRefreshToken (resetFailedAttempts db u.id)
            ctx.freshToken u.id (getRefreshTokenExpiresAt ctx.now) ctx.now)
            ctx.freshSessionId u.id di ip (getRefreshTokenExpiresAt ctx.now) ctx.now := by
        simp [login, hfind, hact, hlock, hval, hreset, hrh]
      rw [hlogin, findUserById_createSession, findUserById_createRefreshToken]
      exact ⟨_, hres, rfl, rfl⟩
  · have h0 : u.failedLoginAttempts = 0 ∧ u.lockedUntil = none := by
      have h' := hreset
      simp only [Bool.or_eq_true, decide_eq_true_eq, bne_iff_ne, ne_eq, not_or,
        not_not, gt_iff_lt] at h'
      exact ⟨by omega, h'.2⟩
    by_cases hrh : (verifyPassword input.password u.password).needsRehash = true
    · have hlogin : (login db ctx input di ip).1 =
          createSession (createRefreshToken
            (updateUserPassword db u.id (hashPassword input.password))
            ctx.freshToken u.id (getRefreshTokenExpiresAt ctx.now) ctx.now)
            ctx.freshSessionId u.id di ip (getRefreshTokenExpiresAt ctx.now) ctx.now := by
        simp [login, hfind, hact, hlock, hval, hreset, hrh]
      have hpw : findUserById (updateUserPassword db u.id
          (hashPassword input.password)) u.id =
          some { u with password := hashPassword input.password } := by
        have hc := findUserById_updateUserRow db u.id
          (fun v => { v with password := hashPassword input.password })
          (fun _ => rfl) (fun _ => rfl)
        rw [updateUserPassword, hc, hbase]
        rfl
      rw [hlogin, findUserById_createSession, findUserById_createRefreshToken]
      exact ⟨_, hpw, h0.1, h0.2⟩
    · have hlogin : (login db ctx input di ip).1 =
          createSession (createRefreshToken db
            ctx.freshToken u.id (getRefreshTokenExpiresAt ctx.now) ctx.now)
            ctx.freshSessionId u.id di ip (getRefreshTokenExpiresAt ctx.now) ctx.now := by
        simp [login, hfind, hact, hlock, hval, hreset, hrh]
      rw [hlogin, findUserById_createSession, findUserById_createRefreshToken]
      exact ⟨_, hbase, h0.1, h0.2⟩

/-- An expired lock with at least five accumulated failures: the next
failed attempt increments the counter and installs a fresh lock whose
duration is at least the previous one. -/
theorem login_relock_after_expiry (db : DB) (ctx : CallCtx) (input : LoginInput)
    (di ip : Option String) (u : User) (t : Nat)
    (hnodup : (db.users.map User.id).Nodup)
    (hfind : findUserByEmail db input.email = some u)
    (hact : u.isActive = true)
    (hlockt : u.lockedUntil = some t) (hexp : t ≤ ctx.now)
    (h5 : 5 ≤ u.failedLoginAttempts)
    (hval : (verifyPassword input.password u.password).valid = false) :
    ∃ (d d' : Nat) (u' : User),
      getLockoutDuration u.failedLoginAttempts = some d ∧
      getLockoutDuration (u.failedLoginAttempts + 1) = some d' ∧
      d ≤ d' ∧
      findUserById (login db ctx input di ip).1 u.id = some u' ∧
      u'.failedLoginAttempts = u.failedLoginAttempts + 1 ∧
      u'.lockedUntil = some (ctx.now + d') := by
  have hlock : u.lockedUntil.any (fun x => decide (ctx.now < x)) = false := by
    rw [hlockt]
    simp only [Option.any_some, decide_eq_false_iff_not, not_lt]
    exact hexp
  obtain ⟨d, d', hd, hd', hdd⟩ := getLockoutDuration_step u.failedLoginAttempts h5
  obtain ⟨u', h1, h2, h3, _⟩ :=
    login_failed_updates db ctx input di ip u hnodup hfind hact hlock hval
  rw [hd'] at h3
  exact ⟨d, d', u', hd, hd', hdd, h1, h2, h3⟩

/-- C10: the failed-login counter and lock are reset only by a successful
password verification — a failed attempt always increments the counter
and (re)locks per the threshold table, even when the previous lock has
merely expired; a success clears both; and a user whose lock expired with
at least five failures is immediately re-locked on the next failure for
at least the previous duration. -/
theorem lockout_reset_only_on_success :
    (∀ (db : DB) (ctx : CallCtx) (input : LoginInput) (di ip : Option String) (u : User),
      (db.users.map User.id).Nodup →
      findUserByEmail db input.email = some u →
      u.isActive = true →
      u.lockedUntil.any (fun t => decide (ctx.now < t)) = false →
      (verifyPassword input.password u.password).valid = false →
      ∃ u' : User,
        findUserById (login db ctx input di ip).1 u.id = some u' ∧
        u'.failedLoginAttempts = u.failedLoginAttempts + 1 ∧
        u'.lockedUntil = (match getLockoutDuration (u.failedLoginAttempts + 1) with
          | some d => some (ctx.now + d)
          | none => u.lockedUntil) ∧
        (login db ctx input di ip).2 =
          Except.error (UnauthorizedError "Invalid email or password" "INVALID_CREDENTIALS")) ∧
    (∀ (db : DB) (ctx : CallCtx) (input : LoginInput) (di ip : Option String) (u : User),
      (db.users.map User.id).Nodup →
      findUserByEmail db input.email = some u →
      u.isActive = true →
      u.lockedUntil.any (fun t => decide (ctx.now < t)) = false →
      (verifyPassword input.password u.password).valid = true →
      ∃ u' : User,
        findUserById (login db ctx input di ip).1 u.id = some u' ∧
        u'.failedLoginAttempts = 0 ∧ u'.lockedUntil = none) ∧
    (∀ (db : DB) (ctx : CallCtx) (input : LoginInput) (di ip : Option String)
        (u : User) (t : Nat),
      (db.users.map User.id).Nodup →
      findUserByEmail db input.email = some u →
      u.isActive = true →
      u.lockedUntil = some t → t ≤ ctx.now →
      5 ≤ u.failedLoginAttempts →
      (verifyPassword input.password u.password).valid = false →
      ∃ (d d' : Nat) (u' : User),
        getLockoutDuration u.failedLoginAttempts = some d ∧
        getLockoutDuration (u.failedLoginAttempts + 1) = some d' ∧
        d ≤ d' ∧
        findUserById (login db ctx input di ip).1 u.id = some u' ∧
        u'.failedLoginAttempts = u.failedLoginAttempts + 1 ∧
        u'.lockedUntil = some (ctx.now + d')) :=
  ⟨fun db ctx input di ip u hn hf ha hl hv =>
      login_failed_updates db ctx input di ip u hn hf ha hl hv,
   fun db ctx input di ip u hn hf ha hl hv =>
      login_success_resets db ctx input di ip u hn hf ha hl hv,
   fun db ctx input di ip u t hn hf ha hlt he h5 hv =>
      login_relock_after_expiry db ctx input di ip u t hn hf ha hlt he h5 hv⟩

/-- Fixture for the C10 witness: an active user whose lock has expired
with six accumulated failures. -/
def expiredLockUser : User :=
  { id := 1, email := "locked@example.com", password := hashPassword "right",
    firstName := "L", lastName := "U", avatarUrl := none, role := UserRole.user,
    isActive := true, deletedAt := none, failedLoginAttempts := 6,
    lockedUntil := some 500, createdAt := 0, updatedAt := 0 }

def expiredLockDB : DB := { users := [expiredLockUser], tokens := [], sessions := [] }

/-- Closed witness for C10: the expired-lock user's next failed attempt
immediately re-locks for at least the previous duration. -/
theorem lockout_reset_only_on_success_witness :
    ∃ (d d' : Nat) (u' : User),
      getLockoutDuration expiredLockUser.failedLoginAttempts = some d ∧
      getLockoutDuration (expiredLockUser.failedLoginAttempts + 1) = some d' ∧
      d ≤ d' ∧
      findUserById (login expiredLockDB sampleCtx
        { email := "locked@example.com", password := "wrong" } none none).1
        expiredLockUser.id = some u' ∧
      u'.failedLoginAttempts = expiredLockUser.failedLoginAttempts + 1 ∧
      u'.lockedUntil = some (sampleCtx.now + d') :=
  lockout_reset_only_on_success.2.2 expiredLockDB sampleCtx
    { email := "locked@example.com", password := "wrong" } none none
    expiredLockUser 500 (by decide) (by decide) (by decide) (by decide)
    (by decide) (by decide) (by decide)
